import Mathlib

/-!
# Verification of the Horizon Canvas core (spatial note workspace)

Shallow embedding of the note store, placement solver, canvas controller,
debounced persistence pipeline and AI-assist handler of the Horizon Canvas
application, together with theorems settling the specification claims.

Numbers (coordinates, sizes, zoom, times) are modelled as rationals `ℚ`;
timestamps as `Int`; identifiers as `String`.
-/

namespace Horizon

/-- The fixed colour palette (`ProjectColor` enum in `types.ts`). -/
inductive ProjectColor where
  | white | blue | yellow | green | red | purple
deriving DecidableEq, Repr

/-- Priority levels (`PriorityLevel` in `types.ts`). -/
inductive PriorityLevel where
  | none | low | medium | high
deriving DecidableEq, Repr

/-- A project note (`ProjectNote` interface in `types.ts`). -/
structure ProjectNote where
  id : String
  title : String
  content : String
  x : ℚ
  y : ℚ
  width : ℚ
  height : ℚ
  color : ProjectColor
  createdAt : Int
  tags : List String
  priority : PriorityLevel
deriving DecidableEq, Repr

/-- Screen/world coordinates (`Coordinates` in `types.ts`). -/
structure Coordinates where
  x : ℚ
  y : ℚ
deriving DecidableEq, Repr

/-- Canvas pan/zoom state (`CanvasState` in `types.ts`). -/
structure CanvasState where
  offset : Coordinates
  zoom : ℚ
deriving DecidableEq, Repr

/-- A partial note update, modelling TypeScript's `Partial<ProjectNote>`:
each field is optionally present. -/
structure PartialNote where
  id : Option String
  title : Option String
  content : Option String
  x : Option ℚ
  y : Option ℚ
  width : Option ℚ
  height : Option ℚ
  color : Option ProjectColor
  createdAt : Option Int
  tags : Option (List String)
  priority : Option PriorityLevel
deriving DecidableEq, Repr

/-- The empty partial update (`{}`). -/
def blankUpdate : PartialNote :=
  ⟨none, none, none, none, none, none, none, none, none, none, none⟩

/-- The object spread `{ ...n, ...updates }`: every field present in
`updates` overrides the corresponding field of `n`. -/
def applyUpdates (n : ProjectNote) (u : PartialNote) : ProjectNote where
  id := u.id.getD n.id
  title := u.title.getD n.title
  content := u.content.getD n.content
  x := u.x.getD n.x
  y := u.y.getD n.y
  width := u.width.getD n.width
  height := u.height.getD n.height
  color := u.color.getD n.color
  createdAt := u.createdAt.getD n.createdAt
  tags := u.tags.getD n.tags
  priority := u.priority.getD n.priority

/-- `updateNote` from `App` (part_000 lines 326–328):
`setNotes(prev => prev.map(n => n.id === id ? { ...n, ...updates } : n))`. -/
def updateNote (id : String) (u : PartialNote) (notes : List ProjectNote) :
    List ProjectNote :=
  notes.map fun n => if n.id = id then applyUpdates n u else n

/-- `deleteNote` from `App` (part_000 lines 330–332):
`setNotes(prev => prev.filter(n => n.id !== id))`. -/
def deleteNote (id : String) (notes : List ProjectNote) : List ProjectNote :=
  notes.filter fun n => n.id != id

/-! ## Placement solver (`addNote`, part_000 lines 249–324) -/

/-- The per-note separating-axis test of the `checkOverlap` closure in
`addNote`: the candidate rectangle `(x, y, w, h)` is within the gap
margin of `note`'s rectangle on both axes. -/
def overlapTest (w h gap x y : ℚ) (note : ProjectNote) : Bool :=
  decide (x < note.x + note.width + gap) &&
  decide (x + w + gap > note.x) &&
  decide (y < note.y + note.height + gap) &&
  decide (y + h + gap > note.y)

/-- The `checkOverlap` closure inside `addNote`: the candidate `(x, y)`
(of size `w × h`) overlaps some existing note, with the gap margin added
during the test. -/
def checkOverlap (notes : List ProjectNote) (w h gap x y : ℚ) : Bool :=
  notes.any (overlapTest w h gap x y)

/-- Loop state of the square-spiral walk in `addNote`:
direction `d`, run length `len`, counters, and cell coordinates. -/
structure SpiralState where
  d : Nat
  len : Nat
  lenCount : Nat
  turnCount : Nat
  cx : Int
  cy : Int
deriving DecidableEq, Repr

/-- One iteration of the spiral loop body (part_000 lines 281–296):
move one cell in direction `d`, then bookkeep run length and turns. -/
def spiralStep (s : SpiralState) : SpiralState :=
  let cx := if s.d = 0 then s.cx + 1 else if s.d = 2 then s.cx - 1 else s.cx
  let cy := if s.d = 1 then s.cy + 1 else if s.d = 3 then s.cy - 1 else s.cy
  let lenCount := s.lenCount + 1
  if lenCount = s.len then
    let d := (s.d + 1) % 4
    let turnCount := s.turnCount + 1
    if turnCount = 2 then
      { d := d, len := s.len + 1, lenCount := 0, turnCount := 0, cx := cx, cy := cy }
    else
      { d := d, len := s.len, lenCount := 0, turnCount := turnCount, cx := cx, cy := cy }
  else
    { s with lenCount := lenCount, cx := cx, cy := cy }

/-- Initial spiral loop state (`d=0, len=1, lenCount=0, turnCount=0, cx=0, cy=0`). -/
def spiralInit : SpiralState := ⟨0, 1, 0, 0, 0, 0⟩

/-- The spiral state after `n` iterations of the loop body. -/
def spiralIter : Nat → SpiralState
  | 0 => spiralInit
  | n + 1 => spiralStep (spiralIter n)

/-- The bounded spiral search of `addNote` (the `for i in 0..100` loop):
advance the spiral; if the candidate cell is free return it, otherwise
continue; when the fuel runs out, `finalX/finalY` keep their initial
values `startX/startY`. -/
def spiralSearch (notes : List ProjectNote) (w h gap startX startY : ℚ) :
    Nat → SpiralState → ℚ × ℚ
  | 0, _ => (startX, startY)
  | fuel + 1, s =>
    let s' := spiralStep s
    let tryX := startX + s'.cx * (w + gap)
    let tryY := startY + s'.cy * (h + gap)
    if checkOverlap notes w h gap tryX tryY then
      spiralSearch notes w h gap startX startY fuel s'
    else
      (tryX, tryY)

/-- The placement logic of `addNote`: keep the start position when it is
free, otherwise run the 100-step spiral search. -/
def placeNote (notes : List ProjectNote) (w h gap startX startY : ℚ) : ℚ × ℚ :=
  if checkOverlap notes w h gap startX startY then
    spiralSearch notes w h gap startX startY 100 spiralInit
  else
    (startX, startY)

/-- The desired start position of a new note: viewport centre in world
space minus half the default size (part_000 lines 254–258). -/
def startPos (canvas : CanvasState) (winW winH : ℚ) : ℚ × ℚ :=
  let width : ℚ := 400
  let height : ℚ := 320
  let viewCenterX := (-canvas.offset.x + winW / 2) / canvas.zoom
  let viewCenterY := (-canvas.offset.y + winH / 2) / canvas.zoom
  (viewCenterX - width / 2, viewCenterY - height / 2)

/-- The note constructed by `addNote` (part_000 lines 309–321), with the
fresh id and the creation timestamp passed in (`uuidv4()` / `Date.now()`
are external inputs). -/
def newNoteOf (notes : List ProjectNote) (canvas : CanvasState)
    (winW winH : ℚ) (newId : String) (now : Int) : ProjectNote :=
  let width : ℚ := 400
  let height : ℚ := 320
  let gap : ℚ := 24
  let start := startPos canvas winW winH
  let pos := placeNote notes width height gap start.1 start.2
  { id := newId
    title := "New Note"
    content := "<ul><li>Item 1</li></ul>"
    x := pos.1
    y := pos.2
    width := width
    height := height
    color := .white
    createdAt := now
    tags := []
    priority := .none }

/-- `addNote` from `App`: place the new note and append it
(`setNotes([...notes, newNote])`). -/
def addNote (notes : List ProjectNote) (canvas : CanvasState)
    (winW winH : ℚ) (newId : String) (now : Int) : List ProjectNote :=
  notes ++ [newNoteOf notes canvas winW winH newId now]

/-! ## Canvas controller (pan/zoom, part_000 lines 9–11, 188–204, 429–451) -/

/-- `MIN_ZOOM = 0.2`. -/
def MIN_ZOOM : ℚ := 1 / 5

/-- `MAX_ZOOM = 2.5`. -/
def MAX_ZOOM : ℚ := 5 / 2

/-- A zoom-relevant UI event: a wheel event (with the ctrl/meta modifier
flag and the two deltas) or one of the two zoom buttons. -/
inductive CanvasEvent where
  | wheel (modifier : Bool) (deltaX deltaY : ℚ)
  | zoomInBtn
  | zoomOutBtn
deriving DecidableEq, Repr

/-- `handleWheel` (part_000 lines 188–204) and the zoom buttons
(part_000 lines 430 and 444) as one transition function on `CanvasState`. -/
def handleCanvasEvent (cs : CanvasState) : CanvasEvent → CanvasState
  | .wheel true _ deltaY =>
    let zoomSensitivity : ℚ := 1 / 1000
    let delta := -deltaY * zoomSensitivity
    { cs with zoom := min (max (cs.zoom + delta) MIN_ZOOM) MAX_ZOOM }
  | .wheel false deltaX deltaY =>
    { cs with offset := ⟨cs.offset.x - deltaX, cs.offset.y - deltaY⟩ }
  | .zoomInBtn => { cs with zoom := min (cs.zoom + 1 / 10) MAX_ZOOM }
  | .zoomOutBtn => { cs with zoom := max (cs.zoom - 1 / 10) MIN_ZOOM }

/-- Run a sequence of canvas events. -/
def runCanvasEvents (cs : CanvasState) (es : List CanvasEvent) : CanvasState :=
  es.foldl handleCanvasEvent cs

/-! ## Resize handler (`handleResizeStart`, ProjectCard.tsx lines 150–171) -/

/-- The partial update produced by the inner `handleMouseMove` of
`handleResizeStart`: deltas are zoom-compensated and the new size is
clamped to the 300/200 floors before `onUpdate` is called. -/
def resizeUpdate (startWidth startHeight clientDX clientDY zoom : ℚ) :
    PartialNote :=
  let deltaX := clientDX / zoom
  let deltaY := clientDY / zoom
  { blankUpdate with
    width := some (max 300 (startWidth + deltaX))
    height := some (max 200 (startHeight + deltaY)) }

/-! ## AI assist (`geminiService.ts`, `handleAiBrainstorm` in ProjectCard.tsx) -/

/-- Outcome of the generative-AI collaborator call: either a response
whose `text` field is the given string (`""` standing for a missing
text, as both are falsy under `||`), or a thrown error. -/
inductive AiOutcome where
  | ok (text : String)
  | err
deriving DecidableEq, Repr

/-- `generateProjectIdeas` (geminiService.ts lines 6–42): with no API key
return the missing-key message; on a collaborator error return the
failure message (the `catch` branch — nothing propagates); otherwise
return `response.text || "No response generated."`. -/
def generateProjectIdeas (apiKey : String) (outcome : AiOutcome) : String :=
  if apiKey = "" then
    "API Key is missing. Please check your configuration."
  else
    match outcome with
    | .ok text => if text = "" then "No response generated." else text
    | .err => "Failed to generate ideas. Please try again."

/-- `suggestion.replace(/\n/g, '<br/>')` on the character list. -/
def replaceNewlinesList : List Char → List Char
  | [] => []
  | c :: cs =>
    if c = '\n' then "<br/>".data ++ replaceNewlinesList cs
    else c :: replaceNewlinesList cs

/-- `suggestion.replace(/\n/g, '<br/>')`: every newline becomes `<br/>`. -/
def replaceNewlines (s : String) : String := ⟨replaceNewlinesList s.data⟩

/-- `handleAiBrainstorm` (ProjectCard.tsx lines 119–131): the partial
update passed to `onUpdate` — the suggestion string (whatever
`generateProjectIdeas` returned) is appended to the note's content after
an "AI Suggestion" banner, with newlines replaced by `<br/>`. -/
def handleAiBrainstorm (note : ProjectNote) (apiKey : String)
    (outcome : AiOutcome) : PartialNote :=
  let suggestion := generateProjectIdeas apiKey outcome
  let newContent :=
    note.content ++ "<br/><br/><strong>AI Suggestion:</strong><br/>" ++
      replaceNewlines suggestion
  { blankUpdate with content := some newContent }

/-! ## Store operation sequences -/

/-- The `(id, createdAt)` pair of a note: the fields assigned at creation
that the spec declares immutable. -/
def noteKey (n : ProjectNote) : String × Int := (n.id, n.createdAt)

/-- One mutation of the note collection: `addNote`, `updateNote` or
`deleteNote`. Creation carries the external inputs of `addNote`
(canvas state, window size, fresh id, timestamp). -/
inductive StoreOp where
  | create (canvas : CanvasState) (winW winH : ℚ) (newId : String) (now : Int)
  | update (id : String) (u : PartialNote)
  | delete (id : String)
deriving Repr

/-- Apply one store operation. -/
def applyOp (notes : List ProjectNote) : StoreOp → List ProjectNote
  | .create canvas winW winH newId now => addNote notes canvas winW winH newId now
  | .update id u => updateNote id u notes
  | .delete id => deleteNote id notes

/-- Side conditions of one operation: a created note's id is fresh
(`uuidv4` never collides), and an update payload does not carry the
`id` or `createdAt` fields (as no in-repo caller does). -/
def opOk (notes : List ProjectNote) : StoreOp → Bool
  | .create _ _ _ newId _ => !((notes.map ProjectNote.id).contains newId)
  | .update _ u => u.id.isNone && u.createdAt.isNone
  | .delete _ => true

/-- Well-formedness of an operation sequence, checked against the store
state at which each operation runs. -/
def wfOps : List ProjectNote → List StoreOp → Bool
  | _, [] => true
  | notes, op :: rest => opOk notes op && wfOps (applyOp notes op) rest

/-- The `(id, createdAt)` pair a creation operation assigns, if any. -/
def createKey : StoreOp → Option (String × Int)
  | .create _ _ _ newId now => some (newId, now)
  | _ => none

/-- Run a sequence of store operations. -/
def runOps (notes : List ProjectNote) (ops : List StoreOp) : List ProjectNote :=
  ops.foldl applyOp notes

/-! ## Sync engine (debounced persistence, part_000 lines 162–183) -/

/-- The observable save status (part_000 line 28). -/
inductive SaveStatus where
  | saved | saving | error | offline
deriving DecidableEq, Repr

/-- State of the debounced save pipeline: the in-memory note collection,
the status indicator, and the pending debounce timer's captured payload
(the `notes` value the effect closure captured when the timer started). -/
structure SyncState where
  notes : List ProjectNote
  status : SaveStatus
  pending : Option (List ProjectNote)
deriving DecidableEq, Repr

/-- An event of the save pipeline: a note-collection mutation (the
effect re-runs: cancel the old timer, set status to `saving`, start a
new timer capturing the current notes), or the debounce timer firing
with the backend write succeeding or failing. -/
inductive SyncEvent where
  | mutate (notes : List ProjectNote)
  | fire (ok : Bool)
deriving Repr

/-- One transition of the save pipeline, also returning the payload of
the write attempted at this step (if any). Mirrors the `useEffect` at
part_000 lines 162–183: the cleanup cancels the pending timer on every
re-run; the timer body writes the captured notes and sets the status to
`saved` on success and `error` in the `catch`; the in-memory notes are
never touched by the effect. -/
def syncStep (st : SyncState) :
    SyncEvent → SyncState × Option (List ProjectNote)
  | .mutate notes =>
    ({ notes := notes, status := .saving, pending := some notes }, none)
  | .fire ok =>
    match st.pending with
    | none => (st, none)
    | some payload =>
      ({ st with status := if ok then .saved else .error, pending := none },
        some payload)

/-- Timed debounce semantics: process time-ordered mutations (time,
state) with a debounce `window`; a pending timer `(fireTime, payload)`
is cancelled and replaced when a mutation arrives before it fires, and
fires (emitting its write) when the next mutation comes at or after its
fire time; the final pending timer fires at the end. Returns the list
of writes as (time, payload) pairs. -/
def debounceWrites (window : ℚ) :
    List (ℚ × List ProjectNote) → Option (ℚ × List ProjectNote) →
    List (ℚ × List ProjectNote)
  | [], none => []
  | [], some pend => [pend]
  | (t, s) :: rest, none => debounceWrites window rest (some (t + window, s))
  | (t, s) :: rest, some pend =>
    if pend.1 ≤ t then
      pend :: debounceWrites window rest (some (t + window, s))
    else
      debounceWrites window rest (some (t + window, s))

/-! ## Concrete inputs used by counterexamples and witnesses -/

/-- A plain note used in concrete scenarios. -/
def baseNote : ProjectNote :=
  { id := "a", title := "t", content := "abc", x := 0, y := 0, width := 400,
    height := 300, color := .white, createdAt := 7, tags := [],
    priority := .none }

/-- A second note with a distinct id. -/
def otherNote : ProjectNote := { baseNote with id := "b", createdAt := 9 }

/-- A partial update that sets the width below 300 and the height below
200 — a payload the store accepts verbatim. -/
def smallGeometry : PartialNote :=
  { blankUpdate with width := some 10, height := some 5 }

/-- The gap-expanded intersection test between two placed notes: `b`'s
rectangle tested against `a`'s rectangle with the 24-unit gap margin
added during the test, exactly as `checkOverlap` tests a candidate
against an existing note (the test is symmetric in the two rectangles). -/
def gapIntersectB (a b : ProjectNote) : Bool :=
  overlapTest b.width b.height 24 b.x b.y a

/-- The world position of the last (100th) spiral candidate cell — what
the bounded search would return if exhaustion yielded the last candidate
tested. -/
def lastSpiralCandidate (w h gap startX startY : ℚ) : ℚ × ℚ :=
  (startX + (spiralIter 100).cx * (w + gap),
   startY + (spiralIter 100).cy * (h + gap))

/-- A note so large that every spiral candidate within the 100-step
bound overlaps it. -/
def giantNote : ProjectNote :=
  { id := "g", title := "", content := "", x := -1000000, y := -1000000,
    width := 2000000, height := 2000000, color := .white, createdAt := 0,
    tags := [], priority := .none }

/-- Canvas at the origin with zoom 1. -/
def canvas0 : CanvasState := ⟨⟨0, 0⟩, 1⟩

/-- Two consecutive `addNote` calls against a store blocked by
`giantNote` (800×640 window, so the desired start cell is (200, 160)). -/
def blockedRun : List ProjectNote :=
  addNote (addNote [giantNote] canvas0 800 640 "a" 0) canvas0 800 640 "b" 1

/-- The literal value of the first note created in `blockedRun` (the
counterexample proves it equal to the `newNoteOf` result). -/
def blockedNoteA : ProjectNote :=
  { id := "a", title := "New Note", content := "<ul><li>Item 1</li></ul>",
    x := 200, y := 160, width := 400, height := 320, color := .white,
    createdAt := 0, tags := [], priority := .none }

/-- The literal value of the second note created in `blockedRun`. -/
def blockedNoteB : ProjectNote := { blockedNoteA with id := "b", createdAt := 1 }

/-- A concrete well-formed operation sequence: create a note, update it
with a geometry payload, delete an unknown id. -/
def sampleOps : List StoreOp :=
  [.create canvas0 800 640 "n1" 5, .update "n1" smallGeometry, .delete "zz"]

end Horizon

namespace Horizon

/-! ## Helper lemmas -/

/-- `updateNote` is the identity when no note in the list has the target
id. -/
theorem updateNote_eq_of_forall_ne (id : String) (u : PartialNote) :
    ∀ (l : List ProjectNote), (∀ n ∈ l, n.id ≠ id) → updateNote id u l = l
  | [], _ => rfl
  | n :: rest, h => by
    simp only [updateNote, List.map_cons]
    rw [if_neg (h n (List.mem_cons_self n rest))]
    have ih := updateNote_eq_of_forall_ne id u rest
      (fun m hm => h m (List.mem_cons_of_mem n hm))
    simp only [updateNote] at ih
    rw [ih]

end Horizon

namespace Horizon

/-- C1, counterexample: the store applies a geometry payload verbatim.
Calling `updateNote` with `{width: 10, height: 5}` on a note of size
400×300 leaves a note of size 10×5 in the store, violating the floors. -/
theorem C1_counterexample :
    updateNote "a" smallGeometry [baseNote] =
      [{ baseNote with width := 10, height := 5 }] ∧
    ¬ ((300 : ℚ) ≤ 10) ∧ ¬ ((200 : ℚ) ≤ 5) := by
  decide

/-- C1 (amended): the geometry floors are enforced by the resize handler,
not by the store — `handleResizeStart` clamps the new size to
`max(300, ·)` / `max(200, ·)` before calling `updateNote`, so after any
resize-generated update the targeted note satisfies `width ≥ 300` and
`height ≥ 200`, whatever the drag deltas, start size and zoom are. -/
theorem C1_resize_reapplies_floors (notes : List ProjectNote) (id : String)
    (startWidth startHeight clientDX clientDY zoom : ℚ) (m : ProjectNote)
    (hm : m ∈ updateNote id
      (resizeUpdate startWidth startHeight clientDX clientDY zoom) notes)
    (hid : m.id = id) :
    300 ≤ m.width ∧ 200 ≤ m.height := by
  simp only [updateNote, List.mem_map] at hm
  obtain ⟨n, _, hcase⟩ := hm
  by_cases h : n.id = id
  · rw [if_pos h] at hcase
    subst hcase
    constructor
    · simp [applyUpdates, resizeUpdate, blankUpdate]
    · simp [applyUpdates, resizeUpdate, blankUpdate]
  · rw [if_neg h] at hcase
    subst hcase
    exact absurd hid h

/-- Witness for C1: a resize drag of −5000 screen pixels at zoom 1 on a
400×300 note still yields a note with `width ≥ 300` and `height ≥ 200`. -/
theorem C1_resize_reapplies_floors_witness :
    300 ≤ (applyUpdates baseNote (resizeUpdate 400 300 (-5000) (-5000) 1)).width ∧
    200 ≤ (applyUpdates baseNote (resizeUpdate 400 300 (-5000) (-5000) 1)).height :=
  C1_resize_reapplies_floors [baseNote] "a" 400 300 (-5000) (-5000) 1
    (applyUpdates baseNote (resizeUpdate 400 300 (-5000) (-5000) 1))
    (by simp [updateNote, baseNote]) (by rfl)

/-- C2, counterexample: on an AI-collaborator error the note's content is
NOT left unchanged — `handleAiBrainstorm` appends the failure message to
the content and the store applies it. -/
theorem C2_counterexample :
    (updateNote "a" (handleAiBrainstorm baseNote "key" .err) [baseNote]).map
        ProjectNote.content =
      ["abc<br/><br/><strong>AI Suggestion:</strong><br/>Failed to generate ideas. Please try again."] ∧
    ("abc<br/><br/><strong>AI Suggestion:</strong><br/>Failed to generate ideas. Please try again." : String) ≠
      baseNote.content := by
  decide

/-- C2 (amended): the AI-assist failure is non-fatal — the collaborator
error is caught and a failure-indicator string is returned instead of an
exception propagating (and a missing API key short-circuits the same
way) — but the handler then appends that indicator to the note's content
behind the "AI Suggestion" banner, so the content field is modified on
failure: the original content survives only as a prefix. -/
theorem C2_assist_failure_appends (note : ProjectNote) (apiKey : String)
    (outcome : AiOutcome) (hk : apiKey ≠ "") :
    (handleAiBrainstorm note apiKey .err).content =
      some (note.content ++ "<br/><br/><strong>AI Suggestion:</strong><br/>" ++
        "Failed to generate ideas. Please try again.") ∧
    (handleAiBrainstorm note "" outcome).content =
      some (note.content ++ "<br/><br/><strong>AI Suggestion:</strong><br/>" ++
        "API Key is missing. Please check your configuration.") := by
  have h1 : replaceNewlines "Failed to generate ideas. Please try again." =
      "Failed to generate ideas. Please try again." := by decide
  have h2 : replaceNewlines "API Key is missing. Please check your configuration." =
      "API Key is missing. Please check your configuration." := by decide
  constructor
  · simp [handleAiBrainstorm, generateProjectIdeas, hk, h1]
  · simp [handleAiBrainstorm, generateProjectIdeas, h2]

/-- Witness for C2: the amended statement at a concrete note and key. -/
theorem C2_assist_failure_appends_witness :
    (handleAiBrainstorm baseNote "key" .err).content =
      some (baseNote.content ++ "<br/><br/><strong>AI Suggestion:</strong><br/>" ++
        "Failed to generate ideas. Please try again.") ∧
    (handleAiBrainstorm baseNote "" (.ok "hi")).content =
      some (baseNote.content ++ "<br/><br/><strong>AI Suggestion:</strong><br/>" ++
        "API Key is missing. Please check your configuration.") :=
  C2_assist_failure_appends baseNote "key" (.ok "hi") (by decide)

/-- C9: updating or deleting with an id not present in the store is a
no-op — the note collection is returned unchanged (both operations are
total functions; no error is raised). -/
theorem C9_unknown_id_noop (id : String) (u : PartialNote)
    (notes : List ProjectNote) (h : id ∉ notes.map ProjectNote.id) :
    updateNote id u notes = notes ∧ deleteNote id notes = notes := by
  have h' : ∀ n ∈ notes, n.id ≠ id := by
    intro n hn he
    exact h (he ▸ List.mem_map_of_mem ProjectNote.id hn)
  refine ⟨updateNote_eq_of_forall_ne id u notes h', ?_⟩
  refine List.filter_eq_self.mpr ?_
  intro n hn
  simpa [bne_iff_ne] using h' n hn

/-- Witness for C9: updating/deleting id `"z"` on a two-note store
changes nothing. -/
theorem C9_unknown_id_noop_witness :
    updateNote "z" smallGeometry [baseNote, otherNote] = [baseNote, otherNote] ∧
    deleteNote "z" [baseNote, otherNote] = [baseNote, otherNote] :=
  C9_unknown_id_noop "z" smallGeometry [baseNote, otherNote] (by decide)

/-- C10 (frame property): `updateNote` preserves the length of the
collection and leaves any note with a different id unchanged at its
position; `deleteNote` yields a sublist (original relative order) that
still contains every note with a different id. -/
theorem C10_frame_effects (id : String) (u : PartialNote)
    (notes : List ProjectNote) (i : Nat) (n : ProjectNote)
    (hi : notes[i]? = some n) (hid : n.id ≠ id) :
    (updateNote id u notes).length = notes.length ∧
    (updateNote id u notes)[i]? = some n ∧
    (deleteNote id notes).Sublist notes ∧
    n ∈ deleteNote id notes := by
  refine ⟨by simp [updateNote], ?_, List.filter_sublist notes, ?_⟩
  · simp [updateNote, List.getElem?_map, hi, if_neg hid]
  · exact List.mem_filter.mpr
      ⟨List.getElem?_mem hi, by simpa [bne_iff_ne] using hid⟩

/-- Witness for C10: updating note `"a"` leaves note `"b"` untouched at
index 1, and deleting `"a"` keeps `"b"`. -/
theorem C10_frame_effects_witness :
    (updateNote "a" smallGeometry [baseNote, otherNote]).length =
      [baseNote, otherNote].length ∧
    (updateNote "a" smallGeometry [baseNote, otherNote])[1]? =
      some otherNote ∧
    (deleteNote "a" [baseNote, otherNote]).Sublist [baseNote, otherNote] ∧
    otherNote ∈ deleteNote "a" [baseNote, otherNote] :=
  C10_frame_effects "a" smallGeometry [baseNote, otherNote] 1 otherNote
    (by simp [baseNote, otherNote]) (by decide)

end Horizon

namespace Horizon

/-- If the bounded spiral search returns at all, its result is either the
unchanged start position (the loop exhausted its fuel with `finalX/finalY`
never reassigned) or a candidate that passes the overlap check. -/
theorem spiralSearch_eq_start_or_free (notes : List ProjectNote)
    (w h gap sx sy : ℚ) :
    ∀ (fuel : Nat) (s : SpiralState),
      spiralSearch notes w h gap sx sy fuel s = (sx, sy) ∨
      checkOverlap notes w h gap (spiralSearch notes w h gap sx sy fuel s).1
        (spiralSearch notes w h gap sx sy fuel s).2 = false
  | 0, _ => Or.inl rfl
  | fuel + 1, s => by
    by_cases hc : checkOverlap notes w h gap
        (sx + (spiralStep s).cx * (w + gap))
        (sy + (spiralStep s).cy * (h + gap)) = true
    · have ih := spiralSearch_eq_start_or_free notes w h gap sx sy fuel
        (spiralStep s)
      simpa [spiralSearch, hc] using ih
    · rw [Bool.not_eq_true] at hc
      right
      simp [spiralSearch, hc]

/-- `placeNote` returns either a position that passes the overlap check,
or exactly the desired start position. -/
theorem placeNote_eq_start_or_free (notes : List ProjectNote)
    (w h gap sx sy : ℚ) :
    placeNote notes w h gap sx sy = (sx, sy) ∨
    checkOverlap notes w h gap (placeNote notes w h gap sx sy).1
      (placeNote notes w h gap sx sy).2 = false := by
  by_cases hc : checkOverlap notes w h gap sx sy = true
  · have hd := spiralSearch_eq_start_or_free notes w h gap sx sy 100 spiralInit
    simpa [placeNote, hc] using hd
  · rw [Bool.not_eq_true] at hc
    left
    simp [placeNote, hc]

/-- C3, counterexample: with every spiral cell blocked, the 100-step
search is exhausted and `placeNote` returns the START position (200, 160)
— not the last candidate tested, which is the 100th spiral cell at
(−1920, 1880). -/
theorem C3_counterexample :
    checkOverlap [giantNote] 400 320 24 200 160 = true ∧
    placeNote [giantNote] 400 320 24 200 160 = (200, 160) ∧
    lastSpiralCandidate 400 320 24 200 160 = (-1920, 1880) ∧
    ((-1920 : ℚ), (1880 : ℚ)) ≠ ((200 : ℚ), (160 : ℚ)) := by
  set_option maxRecDepth 20000 in with_unfolding_all decide

/-- C3 (amended): the returned position of the bounded placement search
is either a candidate that is free of overlap, or — when no free cell is
found within the bound (and also when the start itself is free) — the
original desired start position; the exhausted search falls back to the
start cell, never to the last spiral candidate. -/
theorem C3_bounded_search_returns_start (notes : List ProjectNote)
    (w h gap sx sy : ℚ) :
    placeNote notes w h gap sx sy = (sx, sy) ∨
    checkOverlap notes w h gap (placeNote notes w h gap sx sy).1
      (placeNote notes w h gap sx sy).2 = false :=
  placeNote_eq_start_or_free notes w h gap sx sy

end Horizon

namespace Horizon

/-- C4, counterexample: with the store blocked by `giantNote`, two
consecutive `addNote` calls exhaust the spiral search and both created
notes land on the same start cell (200, 160); their gap-expanded
rectangles intersect even though the notes are distinct. -/
theorem C4_counterexample :
    blockedRun = [giantNote, blockedNoteA, blockedNoteB] ∧
    blockedNoteA.id ≠ blockedNoteB.id ∧
    (blockedNoteA.x, blockedNoteA.y) = (200, 160) ∧
    (blockedNoteB.x, blockedNoteB.y) = (200, 160) ∧
    gapIntersectB blockedNoteA blockedNoteB = true := by
  have h1 : newNoteOf [giantNote] canvas0 800 640 "a" 0 = blockedNoteA := by
    set_option maxRecDepth 20000 in with_unfolding_all decide
  have h3 : newNoteOf [giantNote, blockedNoteA] canvas0 800 640 "b" 1 =
      blockedNoteB := by
    set_option maxRecDepth 20000 in with_unfolding_all decide
  have h2 : addNote [giantNote] canvas0 800 640 "a" 0 =
      [giantNote, blockedNoteA] := by
    show [giantNote] ++ [newNoteOf [giantNote] canvas0 800 640 "a" 0] = _
    rw [h1]
    rfl
  refine ⟨?_, ?_, ?_, ?_, ?_⟩
  · show addNote (addNote [giantNote] canvas0 800 640 "a" 0) canvas0 800 640
        "b" 1 = _
    rw [h2]
    show [giantNote, blockedNoteA] ++
        [newNoteOf [giantNote, blockedNoteA] canvas0 800 640 "b" 1] = _
    rw [h3]
    rfl
  · decide
  · rfl
  · rfl
  · set_option maxRecDepth 20000 in with_unfolding_all decide

/-- C4 (amended): for a note `a` already in the store, the note created
by `addNote` either clears the gap-expanded overlap test against `a`
(its rectangle, expanded by the 24-unit margin during the test, does not
intersect `a`'s), or — only when the bounded search failed to find any
free cell, or the start cell itself was free and occupied territory was
never entered — sits exactly at the desired start position, where
overlap with `a` is possible. -/
theorem C4_created_notes_disjoint_unless_exhausted
    (notes : List ProjectNote) (canvas : CanvasState) (winW winH : ℚ)
    (newId : String) (now : Int) (a : ProjectNote) (ha : a ∈ notes) :
    gapIntersectB a (newNoteOf notes canvas winW winH newId now) = false ∨
    ((newNoteOf notes canvas winW winH newId now).x =
        (startPos canvas winW winH).1 ∧
      (newNoteOf notes canvas winW winH newId now).y =
        (startPos canvas winW winH).2) := by
  rcases placeNote_eq_start_or_free notes 400 320 24
      (startPos canvas winW winH).1 (startPos canvas winW winH).2 with
    hstart | hfree
  · right
    constructor
    · show (placeNote notes 400 320 24 (startPos canvas winW winH).1
        (startPos canvas winW winH).2).1 = _
      rw [hstart]
    · show (placeNote notes 400 320 24 (startPos canvas winW winH).1
        (startPos canvas winW winH).2).2 = _
      rw [hstart]
  · left
    have hall := List.any_eq_false.mp hfree a ha
    show overlapTest 400 320 24
      (placeNote notes 400 320 24 (startPos canvas winW winH).1
        (startPos canvas winW winH).2).1
      (placeNote notes 400 320 24 (startPos canvas winW winH).1
        (startPos canvas winW winH).2).2 a = false
    simpa using hall

/-- Witness for C4: against a store holding only `baseNote`, the
conclusion of the amended placement theorem at concrete inputs. -/
theorem C4_created_notes_disjoint_unless_exhausted_witness :
    gapIntersectB baseNote (newNoteOf [baseNote] canvas0 800 640 "c" 3) = false ∨
    ((newNoteOf [baseNote] canvas0 800 640 "c" 3).x =
        (startPos canvas0 800 640).1 ∧
      (newNoteOf [baseNote] canvas0 800 640 "c" 3).y =
        (startPos canvas0 800 640).2) :=
  C4_created_notes_disjoint_unless_exhausted [baseNote] canvas0 800 640 "c" 3
    baseNote (List.mem_cons_self baseNote [])

end Horizon

namespace Horizon

/-- C5: debounce coalescing — for mutations at t=0, t=0.5 and t=1 with
the 2-second window, exactly one persistence write occurs, at t=3, and
its payload is the state as of t=1 (each mutation before the pending
fire time cancels and replaces the timer); and on every mutation the
status becomes `saving` the moment the timer starts, with the new state
captured as the pending payload. -/
theorem C5_debounce_coalescing (s0 s1 s2 : List ProjectNote)
    (st : SyncState) (s' : List ProjectNote) :
    debounceWrites 2 [(0, s0), (1/2, s1), (1, s2)] none = [(3, s2)] ∧
    (syncStep st (.mutate s')).1.status = .saving ∧
    (syncStep st (.mutate s')).1.pending = some s' := by
  refine ⟨?_, rfl, rfl⟩
  norm_num [debounceWrites]

/-- C6: when the debounced write fails the status becomes `error` while
the in-memory notes are untouched (the attempted payload was the pending
snapshot); a subsequent mutation turns the status to `saving` with the
new data in memory, and its successful fire writes exactly that full
current data and sets the status to `saved`. -/
theorem C6_save_error_recovery (st : SyncState) (p s' : List ProjectNote)
    (hp : st.pending = some p) :
    ((syncStep st (.fire false)).1.status = .error ∧
      (syncStep st (.fire false)).1.notes = st.notes ∧
      (syncStep st (.fire false)).2 = some p) ∧
    ((syncStep (syncStep st (.fire false)).1 (.mutate s')).1.status = .saving ∧
      (syncStep (syncStep st (.fire false)).1 (.mutate s')).1.notes = s') ∧
    ((syncStep (syncStep (syncStep st (.fire false)).1 (.mutate s')).1
        (.fire true)).1.status = .saved ∧
      (syncStep (syncStep (syncStep st (.fire false)).1 (.mutate s')).1
        (.fire true)).2 = some s') := by
  simp [syncStep, hp]

/-- Witness for C6: a concrete failed write followed by a mutation and a
successful write. -/
theorem C6_save_error_recovery_witness :
    ((syncStep ⟨[baseNote], .saving, some [baseNote]⟩ (.fire false)).1.status =
        .error ∧
      (syncStep ⟨[baseNote], .saving, some [baseNote]⟩ (.fire false)).1.notes =
        (⟨[baseNote], .saving, some [baseNote]⟩ : SyncState).notes ∧
      (syncStep ⟨[baseNote], .saving, some [baseNote]⟩ (.fire false)).2 =
        some [baseNote]) ∧
    ((syncStep (syncStep ⟨[baseNote], .saving, some [baseNote]⟩
        (.fire false)).1 (.mutate [otherNote])).1.status = .saving ∧
      (syncStep (syncStep ⟨[baseNote], .saving, some [baseNote]⟩
        (.fire false)).1 (.mutate [otherNote])).1.notes = [otherNote]) ∧
    ((syncStep (syncStep (syncStep ⟨[baseNote], .saving, some [baseNote]⟩
        (.fire false)).1 (.mutate [otherNote])).1 (.fire true)).1.status =
        .saved ∧
      (syncStep (syncStep (syncStep ⟨[baseNote], .saving, some [baseNote]⟩
        (.fire false)).1 (.mutate [otherNote])).1 (.fire true)).2 =
        some [otherNote]) :=
  C6_save_error_recovery ⟨[baseNote], .saving, some [baseNote]⟩ [baseNote]
    [otherNote] rfl

/-- One canvas event keeps the zoom inside `[MIN_ZOOM, MAX_ZOOM]`:
modifier-wheel clamps with `min/max`, the zoom-in button caps at
`MAX_ZOOM`, the zoom-out button floors at `MIN_ZOOM`, and a plain wheel
leaves the zoom untouched. -/
theorem handleCanvasEvent_zoom_le (cs : CanvasState) (e : CanvasEvent)
    (h1 : MIN_ZOOM ≤ cs.zoom) (h2 : cs.zoom ≤ MAX_ZOOM) :
    MIN_ZOOM ≤ (handleCanvasEvent cs e).zoom ∧
    (handleCanvasEvent cs e).zoom ≤ MAX_ZOOM := by
  have hmm : MIN_ZOOM ≤ MAX_ZOOM := by norm_num [MIN_ZOOM, MAX_ZOOM]
  cases e with
  | wheel modifier dX dY =>
    cases modifier with
    | false => exact ⟨h1, h2⟩
    | true => exact ⟨le_min (le_max_right _ _) hmm, min_le_right _ _⟩
  | zoomInBtn =>
    refine ⟨le_min ?_ hmm, min_le_right _ _⟩
    calc MIN_ZOOM ≤ cs.zoom := h1
      _ ≤ cs.zoom + 1 / 10 := by linarith
  | zoomOutBtn =>
    refine ⟨le_max_right _ _, max_le ?_ hmm⟩
    calc cs.zoom - 1 / 10 ≤ cs.zoom := by linarith
      _ ≤ MAX_ZOOM := h2

/-- Any sequence of canvas events keeps the zoom in range. -/
theorem runCanvasEvents_zoom_le :
    ∀ (es : List CanvasEvent) (cs : CanvasState),
      MIN_ZOOM ≤ cs.zoom → cs.zoom ≤ MAX_ZOOM →
      MIN_ZOOM ≤ (runCanvasEvents cs es).zoom ∧
      (runCanvasEvents cs es).zoom ≤ MAX_ZOOM
  | [], _, h1, h2 => ⟨h1, h2⟩
  | e :: rest, cs, h1, h2 => by
    have hstep := handleCanvasEvent_zoom_le cs e h1 h2
    have ih := runCanvasEvents_zoom_le rest (handleCanvasEvent cs e)
      hstep.1 hstep.2
    simpa [runCanvasEvents] using ih

/-- C7: starting from a zoom within `[MIN_ZOOM, MAX_ZOOM]` (0.2–2.5),
any sequence of wheel events and zoom-button presses keeps the zoom in
that interval; and a wheel event without the modifier key changes only
the offset — the zoom is untouched and the offset pans by the deltas. -/
theorem C7_zoom_invariant (es : List CanvasEvent) (cs : CanvasState)
    (dX dY : ℚ) (h1 : MIN_ZOOM ≤ cs.zoom) (h2 : cs.zoom ≤ MAX_ZOOM) :
    (MIN_ZOOM ≤ (runCanvasEvents cs es).zoom ∧
      (runCanvasEvents cs es).zoom ≤ MAX_ZOOM) ∧
    (handleCanvasEvent cs (.wheel false dX dY)).zoom = cs.zoom ∧
    (handleCanvasEvent cs (.wheel false dX dY)).offset =
      ⟨cs.offset.x - dX, cs.offset.y - dY⟩ :=
  ⟨runCanvasEvents_zoom_le es cs h1 h2, rfl, rfl⟩

/-- Witness for C7: from zoom 1, a modifier wheel of +5000 pixels, a
plain wheel and two button presses keep the zoom in range. -/
theorem C7_zoom_invariant_witness :
    (MIN_ZOOM ≤ (runCanvasEvents canvas0
        [.wheel true 0 5000, .wheel false 7 9, .zoomInBtn, .zoomOutBtn]).zoom ∧
      (runCanvasEvents canvas0
        [.wheel true 0 5000, .wheel false 7 9, .zoomInBtn, .zoomOutBtn]).zoom ≤
        MAX_ZOOM) ∧
    (handleCanvasEvent canvas0 (.wheel false 7 9)).zoom = canvas0.zoom ∧
    (handleCanvasEvent canvas0 (.wheel false 7 9)).offset =
      ⟨canvas0.offset.x - 7, canvas0.offset.y - 9⟩ :=
  C7_zoom_invariant [.wheel true 0 5000, .wheel false 7 9, .zoomInBtn, .zoomOutBtn]
    canvas0 7 9 (by norm_num [MIN_ZOOM, canvas0])
    (by norm_num [MAX_ZOOM, canvas0])

end Horizon

namespace Horizon

/-- When the payload omits `id` and `createdAt`, the spread preserves the
creation-assigned pair. -/
theorem applyUpdates_noteKey (n : ProjectNote) (u : PartialNote)
    (h1 : u.id = none) (h2 : u.createdAt = none) :
    noteKey (applyUpdates n u) = noteKey n := by
  simp [noteKey, applyUpdates, h1, h2]

/-- `updateNote` with an id/createdAt-free payload preserves the list of
`(id, createdAt)` pairs (and hence count and order). -/
theorem updateNote_map_noteKey (id : String) (u : PartialNote)
    (h1 : u.id = none) (h2 : u.createdAt = none) :
    ∀ (notes : List ProjectNote),
      (updateNote id u notes).map noteKey = notes.map noteKey
  | [] => rfl
  | n :: rest => by
    have ih := updateNote_map_noteKey id u h1 h2 rest
    simp only [updateNote, List.map_cons] at ih ⊢
    rw [ih]
    by_cases hn : n.id = id
    · rw [if_pos hn, applyUpdates_noteKey n u h1 h2]
    · rw [if_neg hn]

/-- Equal `(id, createdAt)` lists have equal id lists. -/
theorem map_id_of_map_noteKey {l1 l2 : List ProjectNote}
    (h : l1.map noteKey = l2.map noteKey) :
    l1.map ProjectNote.id = l2.map ProjectNote.id := by
  have h2 := congrArg (List.map Prod.fst) h
  simpa [List.map_map, noteKey, Function.comp] using h2

/-- `addNote` appends exactly one `(id, createdAt)` pair — the fresh id
and the creation timestamp. -/
theorem addNote_map_noteKey (notes : List ProjectNote) (canvas : CanvasState)
    (winW winH : ℚ) (newId : String) (now : Int) :
    (addNote notes canvas winW winH newId now).map noteKey =
      notes.map noteKey ++ [(newId, now)] := by
  simp [addNote, noteKey, newNoteOf]

/-- One well-formed operation keeps the id list duplicate-free. -/
theorem applyOp_nodup (notes : List ProjectNote) (op : StoreOp)
    (hok : opOk notes op = true)
    (h : (notes.map ProjectNote.id).Nodup) :
    ((applyOp notes op).map ProjectNote.id).Nodup := by
  cases op with
  | create canvas winW winH newId now =>
    have hfresh : newId ∉ notes.map ProjectNote.id := by
      simpa [opOk] using hok
    have hmap : (applyOp notes (.create canvas winW winH newId now)).map
        ProjectNote.id = notes.map ProjectNote.id ++ [newId] := by
      simp [applyOp, addNote, newNoteOf]
    rw [hmap]
    simp [List.nodup_append, h, hfresh]
  | update id u =>
    have h12 : u.id = none ∧ u.createdAt = none := by
      simpa [opOk, Option.isNone_iff_eq_none] using hok
    have hmap := map_id_of_map_noteKey
      (updateNote_map_noteKey id u h12.1 h12.2 notes)
    rw [show applyOp notes (.update id u) = updateNote id u notes from rfl,
      hmap]
    exact h
  | delete id =>
    have hs : ((deleteNote id notes).map ProjectNote.id).Sublist
        (notes.map ProjectNote.id) :=
      (List.filter_sublist notes).map ProjectNote.id
    exact h.sublist hs

end Horizon

namespace Horizon

/-- One well-formed operation only ever removes `(id, createdAt)` pairs
or adds the single pair assigned by a creation. -/
theorem applyOp_keys_subset (notes : List ProjectNote) (op : StoreOp)
    (hok : opOk notes op = true) :
    ∀ k ∈ (applyOp notes op).map noteKey,
      k ∈ notes.map noteKey ++ (createKey op).toList := by
  cases op with
  | create canvas winW winH newId now =>
    intro k hk
    rw [show applyOp notes (.create canvas winW winH newId now) =
        addNote notes canvas winW winH newId now from rfl,
      addNote_map_noteKey] at hk
    simpa [createKey] using hk
  | update id u =>
    intro k hk
    have h12 : u.id = none ∧ u.createdAt = none := by
      simpa [opOk, Option.isNone_iff_eq_none] using hok
    rw [show applyOp notes (.update id u) = updateNote id u notes from rfl,
      updateNote_map_noteKey id u h12.1 h12.2 notes] at hk
    simpa [createKey] using hk
  | delete id =>
    intro k hk
    have hs : ((deleteNote id notes).map noteKey).Sublist
        (notes.map noteKey) :=
      (List.filter_sublist notes).map noteKey
    simpa [createKey] using hs.subset hk

/-- Running a well-formed operation sequence keeps ids duplicate-free,
and every surviving note's `(id, createdAt)` pair is one that was in the
initial store or was assigned by one of the creation operations. -/
theorem runOps_nodup_and_keys :
    ∀ (ops : List StoreOp) (notes : List ProjectNote),
      (notes.map ProjectNote.id).Nodup → wfOps notes ops = true →
      ((runOps notes ops).map ProjectNote.id).Nodup ∧
      (runOps notes ops).map noteKey ⊆
        notes.map noteKey ++ ops.filterMap createKey
  | [], notes, h, _ => ⟨h, by simp [runOps]⟩
  | op :: rest, notes, h, hwf => by
    have hok : opOk notes op = true := by
      have h' := hwf
      simp only [wfOps, Bool.and_eq_true] at h'
      exact h'.1
    have hrest : wfOps (applyOp notes op) rest = true := by
      have h' := hwf
      simp only [wfOps, Bool.and_eq_true] at h'
      exact h'.2
    have ih := runOps_nodup_and_keys rest (applyOp notes op)
      (applyOp_nodup notes op hok h) hrest
    have hrun : runOps notes (op :: rest) = runOps (applyOp notes op) rest :=
      rfl
    refine ⟨by rw [hrun]; exact ih.1, ?_⟩
    rw [hrun]
    intro k hk
    have hk2 := ih.2 hk
    rcases List.mem_append.mp hk2 with hk3 | hk4
    · have hk5 := applyOp_keys_subset notes op hok k hk3
      rcases List.mem_append.mp hk5 with h5 | h6
      · exact List.mem_append_left _ h5
      · refine List.mem_append_right _ ?_
        cases hck : createKey op with
        | none => rw [hck] at h6; simp at h6
        | some v =>
          rw [hck] at h6
          simp only [Option.toList_some, List.mem_singleton] at h6
          subst h6
          rw [List.filterMap_cons_some hck]
          exact List.mem_cons_self _ _
    · refine List.mem_append_right _ ?_
      cases hck : createKey op with
      | none =>
        rw [List.filterMap_cons_none hck]
        exact hk4
      | some v =>
        rw [List.filterMap_cons_some hck]
        exact List.mem_cons_of_mem _ hk4

end Horizon

namespace Horizon

/-- C8, counterexample: `updateNote` applies an arbitrary partial-field
payload with the spread `{...n, ...updates}`, so a payload carrying `id`
or `createdAt` overwrites them — here it renames note `"a"` (whose
creation values were id `"a"`, createdAt 7) to `"b"` with createdAt 99,
which also duplicates the existing id `"b"`. -/
theorem C8_counterexample :
    (updateNote "a" { blankUpdate with id := some "b", createdAt := some 99 }
        [baseNote, otherNote]).map ProjectNote.id = ["b", "b"] ∧
    ¬ (["b", "b"] : List String).Nodup ∧
    (updateNote "a" { blankUpdate with id := some "b", createdAt := some 99 }
        [baseNote, otherNote]).map ProjectNote.createdAt = [99, 9] ∧
    baseNote.id = "a" ∧ baseNote.createdAt = 7 := by
  decide

/-- C8 (amended): for every operation sequence whose `updateNote`
payloads omit the `id` and `createdAt` fields (as every in-repo caller's
do) and whose creations use fresh ids, all notes keep pairwise distinct
ids, and every note's `(id, createdAt)` pair is exactly one assigned at
creation (or present in the initial store) — no such operation changes a
note's id or createdAt. -/
theorem C8_ids_and_creation_fields_stable (notes : List ProjectNote)
    (ops : List StoreOp) (hnd : (notes.map ProjectNote.id).Nodup)
    (hwf : wfOps notes ops = true) :
    ((runOps notes ops).map ProjectNote.id).Nodup ∧
    (runOps notes ops).map noteKey ⊆
      notes.map noteKey ++ ops.filterMap createKey :=
  runOps_nodup_and_keys ops notes hnd hwf

/-- Witness for C8: running `sampleOps` on a one-note store keeps ids
duplicate-free and every surviving `(id, createdAt)` pair traceable to a
creation. -/
theorem C8_ids_and_creation_fields_stable_witness :
    ((runOps [baseNote] sampleOps).map ProjectNote.id).Nodup ∧
    (runOps [baseNote] sampleOps).map noteKey ⊆
      [baseNote].map noteKey ++ sampleOps.filterMap createKey :=
  C8_ids_and_creation_fields_stable [baseNote] sampleOps (by decide)
    (by with_unfolding_all decide)

end Horizon
